import Mathlib

/-!
Verification of the ask-lawyer-ai client against its specification.

The repository is a browser client for a legal-analysis backend.  The parts
relevant to the claims are:

* `src/src/lib/streamingApi.ts` — the main `StreamingLegalAnalyzer`: an SSE
  client that accumulates message chunks, detects completion via a `done`
  event, and has ad hoc error and timeout handling.
* `src/unnamed/part_005` — an older variant of the analyzer with a
  3-second reconnect timer in its `onerror` handler.
* `src/unnamed/part_006` — an older variant whose `handleStreamEvent`
  dispatches parsed JSON events to typed callbacks.
* `src/unnamed/part_001` — the `Chat` page, with `filteredSessions`.
* `src/unnamed/part_000` — `LegalAnalysisDisplay`, with
  `toggleSection` / `expandAll` / `collapseAll`.
* `src/src/pages/Analyze.tsx` — the Analyze page's `handleSubmit`.

We embed each piece as a pure state-transition function: a handler maps the
analyzer state (the `eventSource` with its ready state, the accumulated
response, the connection-established flag) and the event payload to the new
state plus the list of callback invocations it performs, in order.
-/

namespace AskLawyer

/-- The ready states of a browser `EventSource`
(`CONNECTING = 0`, `OPEN = 1`, `CLOSED = 2`). -/
inductive ReadyState where
  | CONNECTING
  | OPEN
  | CLOSED
deriving DecidableEq, Repr

/-- The JS `String.prototype.trim()`: remove leading and trailing whitespace.
Defined by structural recursion over the character list so that it is
kernel-executable. -/
def jsTrim (s : String) : String :=
  String.mk (((s.data.dropWhile Char.isWhitespace).reverse.dropWhile Char.isWhitespace).reverse)

namespace StreamingApi

/-- A callback invocation performed by the main `StreamingLegalAnalyzer`
(`src/src/lib/streamingApi.ts`): the `StreamingAnalysisCallbacks` interface. -/
inductive CB where
  | onStart
  | onData (s : String)
  | onComplete (s : String)
  | onError (msg : String)
deriving DecidableEq, Repr

/-- The mutable state of a `StreamingLegalAnalyzer` from
`src/src/lib/streamingApi.ts`: the `eventSource` field (`none` models the
JS `null`, `some rs` a live `EventSource` whose `readyState` is `rs`), the
`accumulatedResponse` string, and the `connectionEstablished` local flag of
`startAnalysis` that the handlers close over. -/
structure AnalyzerState where
  eventSource : Option ReadyState
  accumulatedResponse : String
  connectionEstablished : Bool
deriving DecidableEq, Repr

/-- Models `close()`: if `this.eventSource` is non-null, close it and set it to
`null`; otherwise do nothing. -/
def close (st : AnalyzerState) : AnalyzerState :=
  match st.eventSource with
  | some _ => { st with eventSource := none }
  | none => st

/-- Models `isConnected()`: `this.eventSource !== null && this.eventSource.readyState === EventSource.OPEN`. -/
def isConnected (st : AnalyzerState) : Bool :=
  match st.eventSource with
  | some rs => rs == ReadyState.OPEN
  | none => false

/-- The guard of the `onmessage` handler:
`event.data && event.data.trim() && event.data !== '[DONE]'`
(JS string truthiness is non-emptiness). -/
def acceptChunk (data : String) : Bool :=
  data != "" && jsTrim data != "" && data != "[DONE]"

/-- The `onmessage` handler of `startAnalysis`: sets
`connectionEstablished = true`; if the guard `acceptChunk` passes, appends
`chunk + '\n'` to `accumulatedResponse` and invokes `onData(chunk + '\n')`. -/
def handleMessage (st : AnalyzerState) (data : String) : AnalyzerState × List CB :=
  let st1 := { st with connectionEstablished := true }
  if acceptChunk data then
    ({ st1 with accumulatedResponse := st1.accumulatedResponse ++ data ++ "\n" },
     [CB.onData (data ++ "\n")])
  else
    (st1, [])

/-- The `'done'` event listener: invokes `onComplete(this.accumulatedResponse)`
then `this.close()`. -/
def handleDone (st : AnalyzerState) : AnalyzerState × List CB :=
  (close st, [CB.onComplete st.accumulatedResponse])

/-- The error message chosen when the connection never established and the
`EventSource` is already closed. -/
def failedToEstablishMsg : String :=
  "Failed to establish connection to the legal analysis API. This could be due to:\n• Network connectivity issues\n• API service temporarily unavailable\n• Browser security restrictions\n\nPlease try again in a few moments."

/-- The error message chosen when the connection never established and the
`EventSource` is not yet closed. -/
def takingLongerMsg : String :=
  "Connection to the legal analysis service is taking longer than expected. Please check your internet connection and try again."

/-- The error message chosen when an established connection is lost with no
usable accumulated response. -/
def connectionLostMsg : String :=
  "Connection to the legal analysis service was lost. Please try again."

/-- The `onerror` handler of `startAnalysis` in `src/src/lib/streamingApi.ts`:
if the connection was never established, pick a diagnostic message from the
ready state, call `onError` and `close`; if it was established and the
trimmed accumulated response is non-empty, call `onComplete` with the
accumulated response and return (skipping the final `close`); otherwise call
`onError` with the connection-lost message and `close`. -/
def handleError (st : AnalyzerState) : AnalyzerState × List CB :=
  if st.connectionEstablished = false then
    let msg :=
      if st.eventSource = some ReadyState.CLOSED then failedToEstablishMsg
      else takingLongerMsg
    (close st, [CB.onError msg])
  else
    if jsTrim st.accumulatedResponse != "" then
      (st, [CB.onComplete st.accumulatedResponse])
    else
      (close st, [CB.onError connectionLostMsg])

/-- The message passed to `onError` by the 15-second connection timeout. -/
def connectionTimeoutMsg : String :=
  "Connection timeout: Unable to connect to the legal analysis service within 15 seconds. The service may be starting up or temporarily unavailable. Please try again in a moment."

/-- The body of the `setTimeout(..., 15000)` in `startAnalysis`: if
`this.eventSource?.readyState === EventSource.CONNECTING`, invoke `onError`
with the timeout message and `close`; otherwise do nothing. -/
def handleTimeout (st : AnalyzerState) : AnalyzerState × List CB :=
  if st.eventSource = some ReadyState.CONNECTING then
    (close st, [CB.onError connectionTimeoutMsg])
  else
    (st, [])

/-- The prelude of `startAnalysis`: `this.close(); this.accumulatedResponse = '';`. -/
def startAnalysisReset (st : AnalyzerState) : AnalyzerState :=
  { close st with accumulatedResponse := "" }

/-- Models `startAnalysis` after creating the new `EventSource` (which starts in the
`CONNECTING` ready state) with `connectionEstablished = false`. -/
def startAnalysisConnect (st : AnalyzerState) : AnalyzerState :=
  { startAnalysisReset st with
      eventSource := some ReadyState.CONNECTING
      connectionEstablished := false }

/-- The analyzer state right after `startAnalysis` has created its
`EventSource`, starting from a fresh instance
(`eventSource = null`, `accumulatedResponse = ''`). -/
def postStart : AnalyzerState :=
  startAnalysisConnect { eventSource := none, accumulatedResponse := "", connectionEstablished := false }

/-- Deliver a finite sequence of SSE `message` events in order, threading the
analyzer state and collecting every callback invocation. -/
def runMessages (st : AnalyzerState) : List String → AnalyzerState × List CB
  | [] => (st, [])
  | d :: ds =>
    let r1 := handleMessage st d
    let r2 := runMessages r1.1 ds
    (r2.1, r1.2 ++ r2.2)

/-- The strings passed to `onData` in a callback trace, in order. -/
def onDataPayloads (cbs : List CB) : List String :=
  cbs.filterMap fun c =>
    match c with
    | CB.onData s => some s
    | _ => none

/-- The strings passed to `onComplete` in a callback trace, in order. -/
def onCompletePayloads (cbs : List CB) : List String :=
  cbs.filterMap fun c =>
    match c with
    | CB.onComplete s => some s
    | _ => none

/-- Concatenation of a list of strings, in order. -/
def concatStrings : List String → String
  | [] => ""
  | s :: rest => s ++ concatStrings rest

lemma onDataPayloads_append (a b : List CB) :
    onDataPayloads (a ++ b) = onDataPayloads a ++ onDataPayloads b :=
  List.filterMap_append a b _

lemma onCompletePayloads_append (a b : List CB) :
    onCompletePayloads (a ++ b) = onCompletePayloads a ++ onCompletePayloads b :=
  List.filterMap_append a b _

lemma concatStrings_append (a b : List String) :
    concatStrings (a ++ b) = concatStrings a ++ concatStrings b := by
  induction a with
  | nil => simp [concatStrings]
  | cons s rest ih => simp [concatStrings, ih, String.append_assoc]

lemma onDataPayloads_single (s : String) :
    onDataPayloads [CB.onData s] = [s] := rfl

lemma onCompletePayloads_of_data (s : String) :
    onCompletePayloads [CB.onData s] = [] := rfl

lemma concatStrings_cons (s : String) (l : List String) :
    concatStrings (s :: l) = s ++ concatStrings l := rfl

/-- Invariant of message delivery: after any sequence of `message` events, the
accumulated response has grown by exactly the concatenation of the `onData`
payloads, no `onComplete` has been invoked, the `onData` payloads are the
accepted chunks each with a trailing newline, and the `eventSource` is
untouched. -/
lemma runMessages_invariant (ds : List String) (st : AnalyzerState) :
    (runMessages st ds).1.accumulatedResponse
      = st.accumulatedResponse ++ concatStrings (onDataPayloads (runMessages st ds).2)
    ∧ onCompletePayloads (runMessages st ds).2 = []
    ∧ onDataPayloads (runMessages st ds).2
      = (ds.filter acceptChunk).map (fun d => d ++ "\n")
    ∧ (runMessages st ds).1.eventSource = st.eventSource := by
  induction ds generalizing st with
  | nil => simp [runMessages, onDataPayloads, onCompletePayloads, concatStrings]
  | cons d rest ih =>
    by_cases h : acceptChunk d = true
    · obtain ⟨h1, h2, h3, h4⟩ := ih { st with connectionEstablished := true, accumulatedResponse := st.accumulatedResponse ++ d ++ "\n" }
      simp only [runMessages, handleMessage, h, if_true]
      refine ⟨?_, ?_, ?_, ?_⟩
      · rw [onDataPayloads_append, onDataPayloads_single, List.singleton_append,
          concatStrings_cons]
        exact h1.trans (by simp [String.append_assoc])
      · rw [onCompletePayloads_append, onCompletePayloads_of_data, List.nil_append]
        exact h2
      · rw [onDataPayloads_append, onDataPayloads_single, List.singleton_append]
        simp only [List.filter_cons, h, if_true, List.map_cons]
        exact congrArg (List.cons (d ++ "\n")) h3
      · exact h4
    · obtain ⟨h1, h2, h3, h4⟩ := ih { st with connectionEstablished := true }
      rw [Bool.not_eq_true] at h
      simp only [runMessages, handleMessage, h, Bool.false_eq_true, if_false,
        List.nil_append]
      refine ⟨h1, h2, ?_, h4⟩
      simp only [List.filter_cons, h, Bool.false_eq_true, if_false]
      exact h3

/-- C1: for any finite sequence of SSE `message` events delivered after
`startAnalysis` and followed by the `done` event, `onComplete` is invoked
exactly once, at the `done` event, and its argument is the concatenation in
delivery order of exactly the strings passed to `onData`; those strings are
the accepted chunks, each with a trailing newline. -/
theorem startAnalysis_done_concatenation (ds : List String) :
    onCompletePayloads
        ((runMessages postStart ds).2 ++ (handleDone (runMessages postStart ds).1).2)
      = [concatStrings (onDataPayloads (runMessages postStart ds).2)]
    ∧ (handleDone (runMessages postStart ds).1).2
      = [CB.onComplete (concatStrings (onDataPayloads (runMessages postStart ds).2))]
    ∧ onDataPayloads (runMessages postStart ds).2
      = (ds.filter acceptChunk).map (fun d => d ++ "\n") := by
  obtain ⟨hacc, hcomp, hdata, _⟩ := runMessages_invariant ds postStart
  have hacc' : (runMessages postStart ds).1.accumulatedResponse
      = concatStrings (onDataPayloads (runMessages postStart ds).2) := by
    rw [hacc]; simp [postStart, startAnalysisConnect, startAnalysisReset, close]
  refine ⟨?_, ?_, hdata⟩
  · rw [onCompletePayloads_append, hcomp]
    simp [handleDone, onCompletePayloads, hacc']
  · simp [handleDone, hacc']

lemma acceptChunk_iff (d : String) :
    acceptChunk d = true ↔ (d ≠ "" ∧ jsTrim d ≠ "" ∧ d ≠ "[DONE]") := by
  simp [acceptChunk, and_assoc]

/-- C3: a `message` event's data is appended to the accumulated response
(with a trailing newline) and forwarded to `onData` if and only if it is
non-empty, not whitespace-only, and not the literal `'[DONE]'`; otherwise the
accumulated response is unchanged and no callback fires. -/
theorem onmessage_accept_characterization (st : AnalyzerState) (d : String) :
    (d ≠ "" ∧ jsTrim d ≠ "" ∧ d ≠ "[DONE]" →
      handleMessage st d
        = ({ st with connectionEstablished := true,
                     accumulatedResponse := st.accumulatedResponse ++ d ++ "\n" },
           [CB.onData (d ++ "\n")]))
    ∧ (¬ (d ≠ "" ∧ jsTrim d ≠ "" ∧ d ≠ "[DONE]") →
      handleMessage st d = ({ st with connectionEstablished := true }, [])) := by
  constructor
  · intro h
    rw [← acceptChunk_iff] at h
    simp [handleMessage, h]
  · intro h
    rw [← acceptChunk_iff, Bool.not_eq_true] at h
    simp [handleMessage, h]

/-- Witness for C3 at the concrete chunks `"hello"` (accepted) and
`"[DONE]"` (rejected). -/
theorem onmessage_accept_characterization_witness :
    handleMessage postStart "hello"
      = ({ postStart with connectionEstablished := true,
                          accumulatedResponse := postStart.accumulatedResponse ++ "hello" ++ "\n" },
         [CB.onData ("hello" ++ "\n")])
    ∧ handleMessage postStart "[DONE]"
      = ({ postStart with connectionEstablished := true }, []) :=
  ⟨(onmessage_accept_characterization postStart "hello").1 (by decide),
   (onmessage_accept_characterization postStart "[DONE]").2 (by decide)⟩

/-- C6: when the 15-second timer fires, if the `EventSource` is still
`CONNECTING` the client invokes `onError` with the connection-timeout message
and closes the connection; otherwise the timer invokes no callback and leaves
the state unchanged. -/
theorem connection_timeout_behavior (st : AnalyzerState) :
    (st.eventSource = some ReadyState.CONNECTING →
      handleTimeout st = ({ st with eventSource := none }, [CB.onError connectionTimeoutMsg]))
    ∧ (st.eventSource ≠ some ReadyState.CONNECTING →
      handleTimeout st = (st, [])) := by
  constructor
  · intro h
    simp [handleTimeout, close, h]
  · intro h
    simp [handleTimeout, h]

/-- Witness for C6: the timer at a still-connecting state fires the timeout
error and closes; at an open connection it does nothing. -/
theorem connection_timeout_behavior_witness :
    handleTimeout { eventSource := some ReadyState.CONNECTING, accumulatedResponse := "", connectionEstablished := false }
      = ({ eventSource := none, accumulatedResponse := "", connectionEstablished := false }, [CB.onError connectionTimeoutMsg])
    ∧ handleTimeout { eventSource := some ReadyState.OPEN, accumulatedResponse := "", connectionEstablished := true }
      = ({ eventSource := some ReadyState.OPEN, accumulatedResponse := "", connectionEstablished := true }, []) :=
  ⟨(connection_timeout_behavior _).1 rfl, (connection_timeout_behavior _).2 (by decide)⟩

/-- C8: on an error after the connection was established, if the trimmed
accumulated response is non-empty the client invokes `onComplete` with the
partial response (and no `onError`); it invokes `onError` only when the
accumulated response is empty or whitespace. -/
theorem established_error_partial_complete (st : AnalyzerState) :
    (st.connectionEstablished = true → jsTrim st.accumulatedResponse ≠ "" →
      handleError st = (st, [CB.onComplete st.accumulatedResponse]))
    ∧ (st.connectionEstablished = true → jsTrim st.accumulatedResponse = "" →
      handleError st = (close st, [CB.onError connectionLostMsg])) := by
  constructor
  · intro hc ht
    simp [handleError, hc, ht]
  · intro hc ht
    simp [handleError, hc, ht]

/-- Witness for C8: an established-connection error with the partial response
`"partial"` completes with it; with a whitespace-only response it errors. -/
theorem established_error_partial_complete_witness :
    handleError { eventSource := some ReadyState.OPEN, accumulatedResponse := "partial", connectionEstablished := true }
      = ({ eventSource := some ReadyState.OPEN, accumulatedResponse := "partial", connectionEstablished := true },
         [CB.onComplete "partial"])
    ∧ handleError { eventSource := some ReadyState.OPEN, accumulatedResponse := " ", connectionEstablished := true }
      = (close { eventSource := some ReadyState.OPEN, accumulatedResponse := " ", connectionEstablished := true },
         [CB.onError connectionLostMsg]) :=
  ⟨(established_error_partial_complete _).1 rfl (by decide),
   (established_error_partial_complete _).2 rfl (by decide)⟩

/-- C10: after `close()` the `eventSource` is null and `isConnected()` is
false; `close()` is idempotent; and `startAnalysis` closes any existing
connection and resets the accumulated response to the empty string before
opening the new `EventSource` (which starts out `CONNECTING` with an empty
accumulated response). -/
theorem close_idempotent_and_start_reset (st : AnalyzerState) :
    (close st).eventSource = none
    ∧ isConnected (close st) = false
    ∧ close (close st) = close st
    ∧ (startAnalysisReset st).eventSource = none
    ∧ (startAnalysisReset st).accumulatedResponse = ""
    ∧ startAnalysisConnect st
        = { st with eventSource := some ReadyState.CONNECTING,
                    accumulatedResponse := "",
                    connectionEstablished := false } := by
  obtain ⟨es, acc, ce⟩ := st
  cases es <;>
    simp [close, isConnected, startAnalysisReset, startAnalysisConnect]

end StreamingApi

namespace Part005

/-- The mutable state of the `StreamingLegalAnalyzer` variant in
`src/unnamed/part_005`: the `eventSource` (with its ready state) and the
`accumulatedResponse`. -/
structure St where
  eventSource : Option ReadyState
  accumulatedResponse : String
deriving DecidableEq, Repr

/-- Models `close()` of the part_005 analyzer: null out a live `eventSource`. -/
def close (st : St) : St :=
  match st.eventSource with
  | some _ => { st with eventSource := none }
  | none => st

/-- The `onerror` handler of part_005's `startAnalysis` up to the point where
the 3-second reconnect timer is scheduled: invoke
`onError('Connection error occurred')`, then `this.close()`. -/
def handleError (st : St) : St × List StreamingApi.CB :=
  (close st, [StreamingApi.CB.onError "Connection error occurred"])

/-- The guard of the reconnect timer scheduled by part_005's `onerror`:
`this.eventSource?.readyState === EventSource.CLOSED && !this.accumulatedResponse`.
When it is true the timer re-invokes `startAnalysis(caseDescription)`. -/
def reconnectGuard (st : St) : Bool :=
  (match st.eventSource with
   | some rs => rs == ReadyState.CLOSED
   | none => false) && st.accumulatedResponse == ""

/-- C2 (refuting the claimed behavior): when a connection error arrives with
an empty accumulated response, the handler invokes `onError` and closes, but
the reconnect guard evaluated by the 3-second timer is false — `close()` has
already set `eventSource` to `null`, so `eventSource?.readyState === CLOSED`
never holds and `startAnalysis` is never re-invoked.  The guard is false
after every error, whatever the prior state. -/
theorem reconnect_timer_never_restarts :
    (handleError { eventSource := some ReadyState.OPEN, accumulatedResponse := "" }).2
      = [StreamingApi.CB.onError "Connection error occurred"]
    ∧ reconnectGuard (handleError { eventSource := some ReadyState.OPEN, accumulatedResponse := "" }).1 = false
    ∧ ∀ st : St, reconnectGuard (handleError st).1 = false := by
  refine ⟨rfl, rfl, ?_⟩
  intro st
  obtain ⟨es, acc⟩ := st
  cases es <;> simp [handleError, close, reconnectGuard]

end Part005

namespace Part006

/-- The fields that the part_006 `handleStreamEvent` dispatcher reads from a
parsed event's `data` payload (`step_name`, `content`, `message`); each is
optional, mirroring `data?: any`. -/
structure EventData where
  stepName : Option String
  content : Option String
  message : Option String
deriving DecidableEq, Repr

/-- A parsed `StreamingEvent` from `src/unnamed/part_006`: a `type` string,
an optional `data` payload and an optional `step_number`. -/
structure StreamingEvent where
  type : String
  data : Option EventData
  stepNumber : Option Nat
deriving DecidableEq, Repr

/-- A callback invocation of part_006's `StreamingAnalysisCallbacks`. -/
inductive CB where
  | onStart
  | onStepStart (stepNumber : Nat) (stepName : String)
  | onThinkingUpdate (stepNumber : Nat) (content : String)
  | onStepComplete (data : EventData)
  | onComplete (analysis : EventData)
  | onError (msg : String)
deriving DecidableEq, Repr

/-- Models `event.data?.message || 'Unknown error occurred'` (a present but empty
message string is falsy in JS and also falls back to the default). -/
def errorMessageOf : Option EventData → String
  | some d =>
    match d.message with
    | some m => if m == "" then "Unknown error occurred" else m
    | none => "Unknown error occurred"
  | none => "Unknown error occurred"

/-- The `'step_start'` case: `if (event.step_number && event.data?.step_name)`
then `onStepStart(event.step_number, event.data.step_name)`
(JS truthiness: a number is truthy iff non-zero, a string iff non-empty). -/
def stepStartCbs (ev : StreamingEvent) : List CB :=
  match ev.stepNumber, ev.data with
  | some n, some d =>
    match d.stepName with
    | some s => if n != 0 && s != "" then [CB.onStepStart n s] else []
    | none => []
  | _, _ => []

/-- The `'thinking_update'` case: `if (event.step_number && event.data?.content)`
then `onThinkingUpdate(event.step_number, event.data.content)`. -/
def thinkingCbs (ev : StreamingEvent) : List CB :=
  match ev.stepNumber, ev.data with
  | some n, some d =>
    match d.content with
    | some c => if n != 0 && c != "" then [CB.onThinkingUpdate n c] else []
    | none => []
  | _, _ => []

/-- Models `handleStreamEvent` from `src/unnamed/part_006`: dispatch on
`event.type`, returning the callback invocations it performs and whether it
calls `this.close()`. -/
def handleStreamEvent (ev : StreamingEvent) : List CB × Bool :=
  if ev.type == "start" then
    ([CB.onStart], false)
  else if ev.type == "step_start" then
    (stepStartCbs ev, false)
  else if ev.type == "thinking_update" then
    (thinkingCbs ev, false)
  else if ev.type == "step" then
    ((match ev.data with
      | some d => [CB.onStepComplete d]
      | none => []), false)
  else if ev.type == "complete" then
    ((match ev.data with
      | some d => [CB.onComplete d]
      | none => []), true)
  else if ev.type == "error" then
    ([CB.onError (errorMessageOf ev.data)], true)
  else
    ([], false)

/-- C4 counterexample: a `'complete'` event with no `data` payload closes the
connection but invokes no callback at all — in particular `onComplete` is not
invoked, contrary to the claim that `'complete'` invokes `onComplete`. -/
theorem complete_without_data_invokes_nothing :
    handleStreamEvent { type := "complete", data := none, stepNumber := none }
      = ([], true) := rfl

/-- C4 (amended): `handleStreamEvent` invokes exactly the callback matching
the event's type: `'start'` invokes `onStart`; `'step_start'` invokes
`onStepStart` exactly when `step_number` and `data.step_name` are present and
truthy; `'thinking_update'` invokes `onThinkingUpdate` exactly when
`step_number` and `data.content` are present and truthy; `'step'` invokes
`onStepComplete` exactly when `data` is present; `'complete'` invokes
`onComplete` only when `data` is present and always closes the connection;
`'error'` invokes `onError` with `data.message` or the default message and
closes the connection; any other type invokes no callback. -/
theorem handleStreamEvent_dispatch (ev : StreamingEvent) :
    (ev.type = "start" → handleStreamEvent ev = ([CB.onStart], false))
    ∧ (ev.type = "step_start" →
        (∀ n d s, ev.stepNumber = some n → ev.data = some d → d.stepName = some s →
            n ≠ 0 → s ≠ "" →
          handleStreamEvent ev = ([CB.onStepStart n s], false))
        ∧ (¬ (∃ n d s, ev.stepNumber = some n ∧ ev.data = some d ∧ d.stepName = some s
                ∧ n ≠ 0 ∧ s ≠ "") →
          handleStreamEvent ev = ([], false)))
    ∧ (ev.type = "thinking_update" →
        (∀ n d c, ev.stepNumber = some n → ev.data = some d → d.content = some c →
            n ≠ 0 → c ≠ "" →
          handleStreamEvent ev = ([CB.onThinkingUpdate n c], false))
        ∧ (¬ (∃ n d c, ev.stepNumber = some n ∧ ev.data = some d ∧ d.content = some c
                ∧ n ≠ 0 ∧ c ≠ "") →
          handleStreamEvent ev = ([], false)))
    ∧ (ev.type = "step" →
        (∀ d, ev.data = some d → handleStreamEvent ev = ([CB.onStepComplete d], false))
        ∧ (ev.data = none → handleStreamEvent ev = ([], false)))
    ∧ (ev.type = "complete" →
        (∀ d, ev.data = some d → handleStreamEvent ev = ([CB.onComplete d], true))
        ∧ (ev.data = none → handleStreamEvent ev = ([], true)))
    ∧ (ev.type = "error" →
        handleStreamEvent ev = ([CB.onError (errorMessageOf ev.data)], true))
    ∧ (ev.type ∉ (["start", "step_start", "thinking_update", "step", "complete", "error"] : List String) →
        handleStreamEvent ev = ([], false)) := by
  obtain ⟨t, dt, sn⟩ := ev
  refine ⟨?_, ?_, ?_, ?_, ?_, ?_, ?_⟩
  · intro h
    subst h
    rfl
  · intro h
    subst h
    constructor
    · intro n d s h1 h2 h3 hn hs
      subst h1
      subst h2
      simp [handleStreamEvent, stepStartCbs, h3, hn, hs]
    · intro hno
      simp only [handleStreamEvent, stepStartCbs]
      rcases sn with _ | n
      · rfl
      rcases dt with _ | d
      · rfl
      obtain ⟨dsn, dc, dm⟩ := d
      rcases dsn with _ | s
      · rfl
      by_cases hn : n = 0
      · subst hn
        simp
      by_cases hs : s = ""
      · subst hs
        simp
      exact absurd ⟨n, ⟨some s, dc, dm⟩, s, rfl, rfl, rfl, hn, hs⟩ hno
  · intro h
    subst h
    constructor
    · intro n d c h1 h2 h3 hn hc
      subst h1
      subst h2
      simp [handleStreamEvent, thinkingCbs, h3, hn, hc]
    · intro hno
      simp only [handleStreamEvent, thinkingCbs]
      rcases sn with _ | n
      · rfl
      rcases dt with _ | d
      · rfl
      obtain ⟨dsn, dc, dm⟩ := d
      rcases dc with _ | c
      · rfl
      by_cases hn : n = 0
      · subst hn
        simp
      by_cases hc : c = ""
      · subst hc
        simp
      exact absurd ⟨n, ⟨dsn, some c, dm⟩, c, rfl, rfl, rfl, hn, hc⟩ hno
  · intro h
    subst h
    exact ⟨fun d hd => by subst hd; rfl, fun hd => by subst hd; rfl⟩
  · intro h
    subst h
    exact ⟨fun d hd => by subst hd; rfl, fun hd => by subst hd; rfl⟩
  · intro h
    subst h
    rfl
  · intro h
    simp only [List.mem_cons, List.mem_singleton, List.not_mem_nil] at h
    push_neg at h
    obtain ⟨h1, h2, h3, h4, h5, h6⟩ := h
    simp [handleStreamEvent, h1, h2, h3, h4, h5, h6]

/-- Witness for C4 at concrete events: a `'start'` event, a full
`'step_start'` event, a `'complete'` event carrying data, and an unknown
type. -/
theorem handleStreamEvent_dispatch_witness :
    handleStreamEvent { type := "start", data := none, stepNumber := none }
      = ([CB.onStart], false)
    ∧ handleStreamEvent
        { type := "step_start",
          data := some { stepName := some "Research", content := none, message := none },
          stepNumber := some 1 }
      = ([CB.onStepStart 1 "Research"], false)
    ∧ handleStreamEvent
        { type := "complete",
          data := some { stepName := none, content := none, message := none },
          stepNumber := none }
      = ([CB.onComplete { stepName := none, content := none, message := none }], true)
    ∧ handleStreamEvent { type := "bogus", data := none, stepNumber := none }
      = ([], false) :=
  ⟨(handleStreamEvent_dispatch _).1 rfl,
   ((handleStreamEvent_dispatch _).2.1 rfl).1 1 _ "Research" rfl rfl rfl
     (by decide) (by decide),
   ((handleStreamEvent_dispatch _).2.2.2.2.1 rfl).1 _ rfl,
   (handleStreamEvent_dispatch _).2.2.2.2.2.2 (by decide)⟩

end Part006

/-- Models `String.prototype.toLowerCase()`, character by character. -/
def jsToLower (s : String) : String :=
  String.mk (s.data.map Char.toLower)

/-- Models `String.prototype.includes(t)`: `t` occurs in `s` as a contiguous
substring. -/
def jsIncludes (s t : String) : Bool :=
  decide (t.data <:+: s.data)

namespace Chat

/-- A chat message of the `Chat` page (`src/unnamed/part_001`). -/
structure Message where
  id : String
  content : String
  fromUser : Bool
  timestamp : Nat
deriving DecidableEq, Repr

/-- A chat session of the `Chat` page: its title and message list. -/
structure ChatSession where
  id : String
  title : String
  messages : List Message
  lastUpdated : Nat
deriving DecidableEq, Repr

/-- The predicate of `filteredSessions`:
`session.title.toLowerCase().includes(searchTerm.toLowerCase()) || session.messages.some(msg => msg.content.toLowerCase().includes(searchTerm.toLowerCase()))`. -/
def sessionMatches (searchTerm : String) (s : ChatSession) : Bool :=
  jsIncludes (jsToLower s.title) (jsToLower searchTerm)
    || s.messages.any fun m => jsIncludes (jsToLower m.content) (jsToLower searchTerm)

/-- Models `filteredSessions`: `chatHistory.filter(session => ...)`. -/
def filteredSessions (searchTerm : String) (chatHistory : List ChatSession) : List ChatSession :=
  chatHistory.filter (sessionMatches searchTerm)

/-- C5: the session-history search retains exactly the sessions whose title,
or some message content, contains the search term as a case-insensitive
substring; it preserves the relative order of the retained sessions (the
result is a sublist of the input); and the empty search term retains every
session. -/
theorem filteredSessions_characterization (searchTerm : String) (hist : List ChatSession) :
    (∀ s, s ∈ filteredSessions searchTerm hist ↔
      s ∈ hist ∧
        ((jsToLower searchTerm).data <:+: (jsToLower s.title).data
         ∨ ∃ m ∈ s.messages, (jsToLower searchTerm).data <:+: (jsToLower m.content).data))
    ∧ (filteredSessions searchTerm hist).Sublist hist
    ∧ (searchTerm = "" → filteredSessions searchTerm hist = hist) := by
  refine ⟨?_, List.filter_sublist hist, ?_⟩
  · intro s
    simp [filteredSessions, List.mem_filter, sessionMatches, jsIncludes]
  · intro h
    subst h
    apply List.filter_eq_self.mpr
    intro s _
    have : jsToLower "" = "" := rfl
    simp [sessionMatches, jsIncludes, this]

/-- Witness for C5: searching with the empty term retains a concrete
one-session history unchanged. -/
theorem filteredSessions_characterization_witness :
    filteredSessions ""
        [{ id := "1", title := "New Legal Consultation", messages := [], lastUpdated := 0 }]
      = [{ id := "1", title := "New Legal Consultation", messages := [], lastUpdated := 0 }] :=
  (filteredSessions_characterization "" _).2.2 rfl

end Chat

namespace Display

/-- Models `toggleSection` of `LegalAnalysisDisplay` (`src/unnamed/part_000`):
copy the expanded-set; delete the index if present, add it otherwise. -/
def toggleSection (expanded : Finset ℕ) (i : ℕ) : Finset ℕ :=
  if i ∈ expanded then expanded.erase i else insert i expanded

/-- Models `expandAll`: the set of all indices `0 .. sections.length - 1`. -/
def expandAll (numSections : ℕ) : Finset ℕ :=
  Finset.range numSections

/-- Models `collapseAll`: the empty set. -/
def collapseAll : Finset ℕ :=
  (∅ : Finset ℕ)

/-- C7: toggling a section twice returns the expanded-set to its original
value; one toggle flips exactly the membership of the toggled index and
leaves every other index unchanged; `collapseAll` yields the empty set and
`expandAll` yields exactly the indices below the section count. -/
theorem toggleSection_algebra (s : Finset ℕ) (i : ℕ) :
    toggleSection (toggleSection s i) i = s
    ∧ (i ∈ toggleSection s i ↔ i ∉ s)
    ∧ (∀ j, j ≠ i → (j ∈ toggleSection s i ↔ j ∈ s))
    ∧ collapseAll = ∅
    ∧ (∀ n j, j ∈ expandAll n ↔ j < n) := by
  refine ⟨?_, ?_, ?_, rfl, fun n j => Finset.mem_range⟩
  · by_cases h : i ∈ s
    · simp [toggleSection, h, Finset.insert_erase h]
    · simp [toggleSection, h, Finset.erase_insert h]
  · by_cases h : i ∈ s <;> simp [toggleSection, h]
  · intro j hj
    by_cases h : i ∈ s <;>
      simp [toggleSection, h, Finset.mem_erase, Finset.mem_insert, hj]

/-- Witness for C7: toggling section 3 twice on the empty set gives back the
empty set, and toggling 3 does not affect membership of section 5. -/
theorem toggleSection_algebra_witness :
    toggleSection (toggleSection ∅ 3) 3 = ∅
    ∧ (5 ∈ toggleSection ∅ 3 ↔ 5 ∈ (∅ : Finset ℕ)) :=
  ⟨(toggleSection_algebra ∅ 3).1, (toggleSection_algebra ∅ 3).2.2.1 5 (by decide)⟩

end Display

namespace Analyze

/-- The pieces of `Analyze` page state that `handleSubmit` touches
(`src/src/pages/Analyze.tsx`). -/
structure AnalyzeState where
  loading : Bool
  error : Option String
  streamingContent : String
  analysisComplete : Bool
  progressPercent : Nat
  lastSubmittedDescription : String
deriving DecidableEq, Repr

/-- A toast variant (`variant: "destructive"` or the default). -/
inductive ToastVariant where
  | normal
  | destructive
deriving DecidableEq, Repr

/-- A toast notification raised through `useToast`. -/
structure Toast where
  title : String
  description : String
  variant : ToastVariant
deriving DecidableEq, Repr

/-- Models `const minChars = 50`. -/
def minChars : Nat := 50

/-- Models `const isValidInput = charCount >= minChars` with
`charCount = caseDescription.length`. -/
def isValidInput (caseDescription : String) : Bool :=
  minChars ≤ caseDescription.length

/-- The destructive toast raised by `handleSubmit` on too-short input. -/
def inputTooShortToast : Toast :=
  { title := "Input too short",
    description := "Please provide at least 50 characters describing your case.",
    variant := ToastVariant.destructive }

/-- Models `handleSubmit`: if the input is invalid, raise the destructive toast and
return without touching state or starting an analysis; otherwise set the
loading/progress state, record the submitted description, and start the
streaming analysis (the returned boolean says whether a
`StreamingLegalAnalyzer` was constructed and `startAnalysis` invoked). -/
def handleSubmit (st : AnalyzeState) (caseDescription : String) :
    AnalyzeState × List Toast × Bool :=
  if isValidInput caseDescription then
    ({ loading := true, error := none, streamingContent := "",
       analysisComplete := false, progressPercent := 10,
       lastSubmittedDescription := caseDescription },
     [], true)
  else
    (st, [inputTooShortToast], false)

/-- C9: submitting a description shorter than 50 characters starts no
analysis, raises exactly one destructive `Input too short` toast, and leaves
the state unchanged; an analysis is started exactly when the description has
at least 50 characters. -/
theorem handleSubmit_validation (st : AnalyzeState) (d : String) :
    (d.length < 50 →
      handleSubmit st d = (st, [inputTooShortToast], false)
      ∧ inputTooShortToast.variant = ToastVariant.destructive)
    ∧ (50 ≤ d.length → (handleSubmit st d).2.2 = true)
    ∧ ((handleSubmit st d).2.2 = true → 50 ≤ d.length) := by
  by_cases h : 50 ≤ d.length
  · refine ⟨fun hlt => absurd h (by omega), fun _ => ?_, fun _ => h⟩
    simp [handleSubmit, isValidInput, minChars, h]
  · refine ⟨fun _ => ⟨?_, rfl⟩, fun hge => absurd hge h, fun hb => ?_⟩
    · simp [handleSubmit, isValidInput, minChars, h]
    · exfalso
      rw [handleSubmit, isValidInput] at hb
      simp only [minChars, h, decide_eq_true_eq, if_neg] at hb
      exact absurd hb (by simp)

/-- Witness for C9: a 2-character description is rejected with the
destructive toast; a 55-character description starts the analysis. -/
theorem handleSubmit_validation_witness :
    handleSubmit ⟨false, none, "", false, 0, ""⟩ "hi"
      = (⟨false, none, "", false, 0, ""⟩, [inputTooShortToast], false)
    ∧ (handleSubmit ⟨false, none, "", false, 0, ""⟩
        "My landlord has refused to return my security deposit money").2.2 = true :=
  ⟨((handleSubmit_validation _ "hi").1 (by decide)).1,
   (handleSubmit_validation _ _).2.1 (by decide)⟩

end Analyze

end AskLawyer
